import Mathlib

/-!
Verification of the strategic-planning agent (`planning_agent.py`) and its
Flask wrapper (`agent_api.py`).

The embedding models Python runtime values that can appear in the target
mappings as `PyVal` (ints, floats — modelled as exact rationals —, strings
and `None`), Python dictionaries as association lists with Python `dict`
update semantics (first occurrence updated in place, otherwise appended),
and fallible Python operations (f-string formatting, attribute access,
arity-checked calls) as `Except PyErr`.  Python `datetime.date` plus
`timedelta` arithmetic is modelled as the proleptic Gregorian calendar:
`addDays` is the pure in-range day stepping, while `dateCtor` and
`addDaysChecked` add the MINYEAR/MAXYEAR validation and the
`OverflowError` past 9999-12-31 that CPython enforces.
-/

namespace PlanningAgent

/-- A Python runtime value as it can appear in the agent target maps:
an `int`, a `float` (modelled as an exact rational), a `str`, or `None`. -/
inductive PyVal where
  | int (n : Int)
  | float (q : ℚ)
  | str (s : String)
  | none
deriving DecidableEq

/-- Python exceptions raised by the modelled code paths. -/
inductive PyErr where
  | typeError (msg : String)
  | valueError (msg : String)
  | attributeError (msg : String)
  | keyError (k : String)
  | overflowError (msg : String)
deriving DecidableEq

deriving instance DecidableEq for Except

/-- Python `d.get(k)` on a `dict` with integer keys: the value if present,
`None` otherwise. -/
def dictGet (d : List (Int × PyVal)) (k : Int) : PyVal :=
  match d with
  | [] => PyVal.none
  | (k₁, v₁) :: rest => if k₁ = k then v₁ else dictGet rest k

/-- Keys of an integer-keyed mapping, in order. -/
def keysOf (d : List (Int × PyVal)) : List Int := d.map Prod.fst

/-- Python `dict` insertion: an existing key is updated in place, a new key
is appended at the end. -/
def dictInsert (d : List (String × PyVal)) (k : String) (v : PyVal) :
    List (String × PyVal) :=
  match d with
  | [] => [(k, v)]
  | (k₁, v₁) :: rest =>
      if k₁ = k then (k₁, v) :: rest else (k₁, v₁) :: dictInsert rest k v

/-- Lookup in a string-keyed row dictionary (`None`-free: absence is
`Option.none`, a stored Python `None` is `some PyVal.none`). -/
def rowLookup (d : List (String × PyVal)) (k : String) : Option PyVal :=
  match d with
  | [] => Option.none
  | (k₁, v₁) :: rest => if k₁ = k then some v₁ else rowLookup rest k

/-- Python `t[k]` on a row dictionary: `KeyError` when the key is absent. -/
def rowGetE (d : List (String × PyVal)) (k : String) : Except PyErr PyVal :=
  match rowLookup d k with
  | some v => .ok v
  | Option.none => .error (.keyError k)

/-- Python `sw.get(k, [])` on the SWOT dictionary. -/
def swotGet (sw : List (String × List String)) (k : String) : List String :=
  match sw with
  | [] => []
  | (k₁, v₁) :: rest => if k₁ = k then v₁ else swotGet rest k

/-! ### Dates: `datetime.date` and `timedelta` addition -/

/-- A calendar date (proleptic Gregorian, unbounded years). -/
structure Date where
  year : Int
  month : Nat
  day : Nat
deriving DecidableEq

/-- Gregorian leap-year rule. -/
def isLeap (y : Int) : Bool :=
  (y % 4 == 0 && y % 100 != 0) || y % 400 == 0

/-- Number of days in a month of a given year. -/
def daysInMonth (y : Int) (m : Nat) : Nat :=
  if m = 2 then (if isLeap y then 29 else 28)
  else if m = 4 ∨ m = 6 ∨ m = 9 ∨ m = 11 then 30
  else 31

/-- The day after a given date. -/
def nextDay (d : Date) : Date :=
  if d.day < daysInMonth d.year d.month then ⟨d.year, d.month, d.day + 1⟩
  else if d.month < 12 then ⟨d.year, d.month + 1, 1⟩
  else ⟨d.year + 1, 1, 1⟩

/-- Python `date + timedelta(days = n)` as pure proleptic-Gregorian day
stepping, without the MINYEAR/MAXYEAR bounds of CPython (which are
modelled separately by `addDaysChecked` below); within those bounds the
two agree, and the unchecked form is what the conditional milestone
schedule statement quantifies over. -/
def addDays (d : Date) : Nat → Date
  | 0 => d
  | n + 1 => nextDay (addDays d n)

/-- Two-digit zero padding. -/
def pad2 (n : Nat) : String :=
  if n < 10 then "0" ++ toString n else toString n

/-- Four-digit zero padding of a year. -/
def pad4 (y : Int) : String :=
  if y < 0 then "-" ++ pad4 (-y)
  else if y < 10 then "000" ++ toString y
  else if y < 100 then "00" ++ toString y
  else if y < 1000 then "0" ++ toString y
  else toString y
termination_by y.natAbs + (if y < 0 then 1 else 0)
decreasing_by
  simp_all
  omega

/-- Python `date.isoformat()`. -/
def isoformat (d : Date) : String :=
  pad4 d.year ++ "-" ++ pad2 d.month ++ "-" ++ pad2 d.day

/-! ### `range(start, stop, step)` for a non-zero integer step -/

/-- Python `range(start, stop, step)` as a list, for `step ≠ 0`
(`step = 0` raises and is guarded at the call site). -/
def pyRange (start stop step : Int) : List Int :=
  if 0 < step then
    (List.range ((stop - start + step - 1) / step).toNat).map
      (fun (k : Nat) => start + step * (k : Int))
  else if step < 0 then
    (List.range ((start - stop + (-step) - 1) / (-step)).toNat).map
      (fun (k : Nat) => start + step * (k : Int))
  else []

/-! ### Numeric formatting (f-string format specs) -/

/-- Exact product of two rationals, written with `mkRat` so that it
evaluates by kernel reduction; `ratMul_eq_mul` below identifies it with
the ambient multiplication on `ℚ`. -/
def ratMul (a b : ℚ) : ℚ := mkRat (a.num * b.num) (a.den * b.den)

/-- Round a rational to the nearest integer, ties to even, as CPython
`format(x, ".0f")` does on the exact value.  The fractional part
`r = q - ⌊q⌋` is compared with `1/2` through the equivalent integer
comparison of `2 * (q.num - ⌊q⌋ * q.den)` with `q.den`. -/
def roundHalfEven (q : ℚ) : Int :=
  let f : Int := q.floor
  let rNum : Int := q.num - f * (q.den : Int)
  if 2 * rNum < (q.den : Int) then f
  else if (q.den : Int) < 2 * rNum then f + 1
  else if f % 2 = 0 then f else f + 1

/-- Insert thousands separators into a reversed digit list. -/
def commaRev : List Char → List Char
  | c₁ :: c₂ :: c₃ :: c₄ :: rest =>
      c₁ :: c₂ :: c₃ :: ',' :: commaRev (c₄ :: rest)
  | l => l

/-- Thousands-grouped rendering of an integer (`format(n, ",d")` core). -/
def commaFmt (n : Int) : String :=
  (if n < 0 then "-" else "")
    ++ String.mk (commaRev (toString n.natAbs).data.reverse).reverse

/-- Formatting `f"{v:.0f}"`: zero-decimal fixed point.  A string raises
`ValueError`, `None` raises `TypeError`, exactly as in CPython. -/
def fmtF0 : PyVal → Except PyErr String
  | .int n => .ok (toString n)
  | .float q => .ok (toString (roundHalfEven q))
  | .str _ => .error (.valueError "Unknown format code f for object of type str")
  | .none => .error (.typeError "unsupported format string passed to NoneType.__format__")

/-- Formatting `f"{v:,.0f}"`: zero-decimal fixed point with thousands
separators. -/
def fmtCommaF0 : PyVal → Except PyErr String
  | .int n => .ok (commaFmt n)
  | .float q => .ok (commaFmt (roundHalfEven q))
  | .str _ => .error (.valueError "Unknown format code f for object of type str")
  | .none => .error (.typeError "unsupported format string passed to NoneType.__format__")

/-- Python string repetition `s * n`. -/
def strRepeat (s : String) : Nat → String
  | 0 => ""
  | n + 1 => s ++ strRepeat s n

/-- Python `*` on the value kinds reaching `gross_margin * 100`. -/
def pyMul : PyVal → PyVal → Except PyErr PyVal
  | .int a, .int b => .ok (.int (a * b))
  | .int a, .float b => .ok (.float (ratMul (mkRat a 1) b))
  | .float a, .int b => .ok (.float (ratMul a (mkRat b 1)))
  | .float a, .float b => .ok (.float (ratMul a b))
  | .str s, .int n => .ok (.str (strRepeat s n.toNat))
  | .int n, .str s => .ok (.str (strRepeat s n.toNat))
  | _, _ => .error (.typeError "unsupported operand type(s) for *")

/-- Decimal rendering of the fractional part of a non-negative rational,
up to `fuel` digits (used only by `pyStr` on floats; the claims never
render a float through `str`). -/
def fracDigits (num den : Nat) : Nat → String
  | 0 => ""
  | fuel + 1 =>
      if num = 0 then ""
      else
        let num' := num * 10
        toString (num' / den) ++ fracDigits (num' % den) den fuel

/-- Model of Python `str` on a float value, as exact decimal expansion. -/
def floatRepr (q : ℚ) : String :=
  let sign := if q < 0 then "-" else ""
  let n := q.num.natAbs
  let d := q.den
  let frac := fracDigits (n % d) d 17
  sign ++ toString (n / d) ++ "." ++ (if frac = "" then "0" else frac)

/-- Python `str()` / f-string default conversion of a value. -/
def pyStr : PyVal → String
  | .int n => toString n
  | .float q => floatRepr q
  | .str s => s
  | .none => "None"

/-! ### Milestones (`generate_milestones`) -/

/-- Body of `generate_milestones` for a non-zero cadence: for each
`i in range(0, 36, months_per_milestone)`, the date is
`date(start_year, 1, 1) + timedelta(days = 30 * i)` and the label is
`"Milestone {i // m + 1} – Year {(date.year - start_year) + 1}"`. -/
def milestonesList (start_year : Int) (m : Int) : List (Date × String) :=
  (pyRange 0 36 m).map (fun i =>
    let date := addDays ⟨start_year, 1, 1⟩ (30 * i).toNat
    (date,
      "Milestone " ++ toString (Int.fdiv i m + 1)
        ++ " – Year " ++ toString (date.year - start_year + 1)))

/-- The method `generate_milestones(months_per_milestone)`: a zero cadence raises
`ValueError` inside `range`; otherwise the milestone list is returned.
This variant keeps the date arithmetic on the unbounded calendar of
`addDays`, so it is faithful only while the start year keeps every
computed date inside the `datetime` year range;
`generate_milestones_checked` below models the year bounds of CPython. -/
def generate_milestones (start_year : Int) (months_per_milestone : Int := 6) :
    Except PyErr (List (Date × String)) :=
  if months_per_milestone = 0 then
    .error (.valueError "range() arg 3 must not be zero")
  else .ok (milestonesList start_year months_per_milestone)

/-- Smallest year accepted by `datetime.date` (CPython `MINYEAR`). -/
def MINYEAR : Int := 1

/-- Largest year accepted by `datetime.date` (CPython `MAXYEAR`). -/
def MAXYEAR : Int := 9999

/-- The `datetime.date(year, month, day)` constructor with field
validation: CPython checks the year against `MINYEAR..MAXYEAR`, then the
month, then the day, raising `ValueError` at the first violation. -/
def dateCtor (y : Int) (m d : Nat) : Except PyErr Date :=
  if y < MINYEAR ∨ MAXYEAR < y then
    .error (.valueError ("year " ++ toString y ++ " is out of range"))
  else if m < 1 ∨ 12 < m then
    .error (.valueError "month must be in 1..12")
  else if d < 1 ∨ daysInMonth y m < d then
    .error (.valueError "day is out of range for month")
  else .ok ⟨y, m, d⟩

/-- Python `date + timedelta(days = n)` with the CPython ordinal bound: a
result past 9999-12-31 raises `OverflowError`.  Adding a non-negative day
count to an in-range date can only violate the upper bound, so only that
bound is checked. -/
def addDaysChecked (d : Date) (n : Nat) : Except PyErr Date :=
  let r := addDays d n
  if r.year ≤ MAXYEAR then .ok r
  else .error (.overflowError "date value out of range")

/-- The body of the milestone loop with bounded date arithmetic: for each
loop month-offset `i` in order, compute the milestone date (propagating
`OverflowError`) and its label. -/
def milestoneEntriesChecked (start : Date) (start_year m : Int) :
    List Int → Except PyErr (List (Date × String))
  | [] => .ok []
  | i :: rest => do
      let date ← addDaysChecked start (30 * i).toNat
      let tail ← milestoneEntriesChecked start start_year m rest
      .ok ((date,
        "Milestone " ++ toString (Int.fdiv i m + 1)
          ++ " – Year " ++ toString (date.year - start_year + 1)) :: tail)

/-- The method `generate_milestones` with the `datetime` year bounds of
CPython: `date(start_year, 1, 1)` is constructed first (raising
`ValueError` for a start year outside `MINYEAR..MAXYEAR`), then `range`
rejects a zero cadence, then each milestone date is computed with the
bounded `+ timedelta` (raising `OverflowError` past 9999-12-31). -/
def generate_milestones_checked (start_year : Int)
    (months_per_milestone : Int := 6) :
    Except PyErr (List (Date × String)) := do
  let start ← dateCtor start_year 1 1
  if months_per_milestone = 0 then
    .error (.valueError "range() arg 3 must not be zero")
  else
    milestoneEntriesChecked start start_year months_per_milestone
      (pyRange 0 36 months_per_milestone)

/-! ### Static catalogs (`suggest_kpis`, `recommend_services`) -/

/-- The static KPI catalog returned by `suggest_kpis`. -/
def suggest_kpis : List (String × List String) := [
  ("financial", ["Annual revenue", "Gross margin", "Net profit", "EBITDA", "Cash burn rate", "Runway (months of operating cash)"]),
  ("customer", ["Number of customers", "Customer acquisition cost (CAC)", "Customer lifetime value (LTV)", "Churn rate", "Net promoter score (NPS)"]),
  ("marketing", ["Website traffic", "Leads generated", "Conversion rate", "Cost per lead", "Social media engagement"]),
  ("operations", ["Product/service delivery time", "Defect/return rate", "Operational efficiency (output per employee)", "Inventory turnover rate", "On‑time project completion percentage"]),
  ("hr", ["Employee retention rate", "Employee satisfaction score", "Time to hire", "Diversity ratio", "AI adoption in HR processes"])
]

/-- One provider entry of the static service catalog. -/
structure ServiceProvider where
  name : String
  features : List String
  notes : String
deriving DecidableEq

/-- The static service-provider catalog returned by `recommend_services`. -/
def recommend_services : List (String × List ServiceProvider) := [
  ("legal", [
    ⟨"LegalZoom", ["Unlimited legal consultations", "Annual business evaluation", "150+ legal forms"],
      "Top overall online legal service for startups, offering incorporation, intellectual property and compliance support"⟩,
    ⟨"Firstbase.io", ["Automated compliance reminders", "Registered agent service", "Annual reports and franchise tax filings"],
      "Best for startup incorporation and compliance bundles"⟩,
    ⟨"Rocket Lawyer", ["On‑call attorneys", "Customizable legal forms", "Document defence"],
      "Best for complex legal issues and access to attorneys"⟩,
    ⟨"Clerky", ["Variety of fundraising documents", "Pay‑per‑use filing"],
      "Best for fundraising and accurate legal paperwork"⟩
  ]),
  ("payroll", [
    ⟨"Gusto", ["Automatic federal, state and local tax filing", "Unlimited payroll runs", "State new‑hire reporting", "PTO and holiday pay"],
      "Full‑service payroll for small businesses"⟩,
    ⟨"Wave Payroll", ["Full service payroll with tax filing in selected states", "Self‑service option for other states", "Integration with Wave accounting"],
      "Payroll add‑on to the free Wave accounting platform"⟩,
    ⟨"OnPay", ["Digital document storage", "HR compliance tracking", "Integration with QuickBooks and Xero"],
      "Best for recordkeeping and HR compliance"⟩,
    ⟨"Rippling", ["Automated payroll processing", "Integration with HR, IT and benefits", "500+ third‑party tool integrations"],
      "Best for startups wanting seamless payroll and HR integration"⟩
  ]),
  ("accounting", [
    ⟨"Brex", ["Automatic expense categorization", "Real‑time spend tracking", "Customizable approval workflows", "Detailed financial reporting", "1000+ software integrations"],
      "All‑in‑one expense management and accounting platform tailored for startups"⟩,
    ⟨"QuickBooks Online", ["Automated bank feeds", "Customizable invoicing", "Expense tracking with receipt capture", "Inventory management", "40+ reporting templates"],
      "Industry‑standard cloud accounting solution with extensive integrations"⟩,
    ⟨"Xero", ["Bank reconciliation with machine learning", "Customizable invoicing", "Project costing and time tracking", "Inventory tracking", "Multi‑currency support"],
      "User‑friendly cloud accounting system with strong international support"⟩,
    ⟨"Sage Intacct", ["Revenue recognition automation", "Multi‑entity management", "Customizable reporting", "Project accounting", "AI‑powered timesheets"],
      "Best for complex or multi‑entity startups requiring GAAP/IFRS compliance"⟩,
    ⟨"Wave Accounting", ["Free double‑entry bookkeeping", "Customizable invoicing", "Receipt scanning", "Basic financial reports", "Multi‑currency support"],
      "Best free accounting software for small teams and freelancers"⟩
  ]),
  ("marketing", [
    ⟨"HubSpot Marketing", ["CRM integration", "Marketing automation", "Email and social media management", "Lead scoring", "Analytics and reporting"],
      "Comprehensive platform that combines marketing, sales and service tools"⟩,
    ⟨"Canva", ["Drag‑and‑drop design editor", "Templates and stock media", "Logo maker", "Animation and video creation", "Collaboration tools"],
      "Easy graphics creation for branding, content and presentations"⟩,
    ⟨"Google Analytics", ["Website traffic insights", "Goal and conversion tracking", "Audience segmentation", "Reporting dashboards", "Integration with advertising platforms"],
      "Essential tool for understanding website performance and user behaviour"⟩,
    ⟨"Mailchimp or Klaviyo", ["Email marketing automation", "Personalized campaigns", "Segmentation and A/B testing", "Analytics", "Ecommerce integrations"],
      "Popular platforms for email marketing and customer engagement"⟩,
    ⟨"Buffer or Hootsuite", ["Social media scheduling", "Multi‑platform posting", "Engagement tracking", "Analytics", "Team collaboration"],
      "Tools to plan and analyse social media content"⟩
  ]),
  ("hr_ai", [
    ⟨"AI‑powered HR tools", ["Automated candidate screening", "Chatbots for recruiting", "Predictive analytics for flight risks", "Sentiment analysis for engagement", "Personalized learning and development"],
      "AI boosts HR productivity and enables proactive talent management; studies report a 63 % productivity boost and 55 % automation of manual tasks【179547689127451†L129-L149】"⟩
  ])
]

/-! ### The agent state and `build_plan` -/

/-- The `StrategicPlanningAgent` dataclass.  Target mappings are
association lists standing for Python dicts (keys unique in any state a
Python dict can reach); values are runtime `PyVal`s so that non-numeric
entries can be represented. -/
structure StrategicPlanningAgent where
  company_name : String
  mission : String
  vision : String
  core_values : List String
  baseline_metrics : List (String × PyVal)
  revenue_targets : List (Int × PyVal) := []
  customer_targets : List (Int × PyVal) := []
  margin_targets : List (Int × PyVal) := []
  other_targets : List (String × List (Int × PyVal)) := []
  revenue_moves : List String := []
  profit_moves : List String := []
  swot : Option (List (String × List String)) := Option.none
  start_year : Int

/-- The `company_profile` sub-record of a plan. -/
structure CompanyProfile where
  name : String
  mission : String
  vision : String
  core_values : List String
deriving DecidableEq

/-- The `winning_moves` sub-record of a plan. -/
structure WinningMovesRec where
  revenue_moves : List String
  profit_moves : List String
deriving DecidableEq

/-- One serialized milestone of a plan. -/
structure MilestoneRec where
  date : String
  description : String
deriving DecidableEq

/-- The dictionary returned by `build_plan`. -/
structure Plan where
  executive_summary : String
  company_profile : CompanyProfile
  baseline_metrics : List (String × PyVal)
  strategic_targets : List (List (String × PyVal))
  winning_moves : WinningMovesRec
  swot_analysis : Option (List (String × List String))
  milestones : List MilestoneRec
  recommended_kpis : List (String × List String)
  service_recommendations : List (String × List ServiceProvider)

/-- Python `sorted(set(revenue keys + customer keys + margin keys))`: the year
list driving the target table.  Note the source does not consult
`other_targets` here. -/
def planYears (a : StrategicPlanningAgent) : List Int :=
  List.insertionSort (· ≤ ·)
    ((keysOf a.revenue_targets ++ keysOf a.customer_targets
      ++ keysOf a.margin_targets).dedup)

/-- One row of the target table: the dict literal
`{"year": year, "revenue": …, "customers": …, "gross_margin": …,
**{metric: values.get(year) for metric, values in other_targets.items()}}`,
with Python dict-merge (update-or-append) semantics for the unpacked
extra metrics. -/
def buildRow (a : StrategicPlanningAgent) (year : Int) :
    List (String × PyVal) :=
  (a.other_targets.map (fun p => (p.1, dictGet p.2 year))).foldl
    (fun d p => dictInsert d p.1 p.2)
    [("year", PyVal.int year),
     ("revenue", dictGet a.revenue_targets year),
     ("customers", dictGet a.customer_targets year),
     ("gross_margin", dictGet a.margin_targets year)]

/-- The method `build_plan`: assembles the plan dictionary. -/
def build_plan (a : StrategicPlanningAgent) : Plan :=
  let years := planYears a
  let targets_summary := years.map (buildRow a)
  { executive_summary :=
      a.company_name ++ " aims to realise its vision of " ++ a.vision
        ++ " by executing a three‑year plan built around SMART goals, clear milestones and disciplined measurement.",
    company_profile :=
      ⟨a.company_name, a.mission, a.vision, a.core_values⟩,
    baseline_metrics := a.baseline_metrics,
    strategic_targets := targets_summary,
    winning_moves := ⟨a.revenue_moves, a.profit_moves⟩,
    swot_analysis := a.swot,
    milestones :=
      (milestonesList a.start_year 6).map
        (fun p => ⟨isoformat p.1, p.2⟩),
    recommended_kpis := suggest_kpis,
    service_recommendations := recommend_services }

/-! ### `generate_narrative` -/

/-- The first line of a target-table row sentence, with the f-string
fields evaluated left to right exactly as CPython does:
`t["year"]`, then `t["revenue"]` formatted `,.0f`, then `t["customers"]`
via `str`, then `t["gross_margin"] * 100` formatted `.0f`. -/
def renderRowHead (t : List (String × PyVal)) : Except PyErr String := do
  let y ← rowGetE t "year"
  let rv ← rowGetE t "revenue"
  let rvs ← fmtCommaF0 rv
  let c ← rowGetE t "customers"
  let g ← rowGetE t "gross_margin"
  let gp ← pyMul g (PyVal.int 100)
  let gs ← fmtF0 gp
  .ok ("In " ++ pyStr y ++ ", we aim to generate $" ++ rvs
    ++ " in revenue and serve " ++ pyStr c
    ++ " customers, achieving a gross margin of " ++ gs ++ "%")

/-- Replace underscores with spaces (`metric.replace("_", " ")` of the source). -/
def underscoreToSpace (s : String) : String :=
  String.mk (s.data.map (fun c => if c = '_' then ' ' else c))

/-- The extra-metric clauses of one row: the loop
`for metric, value in t.items()` skipping the four reserved keys, each
remaining entry rendered as the clause "with {metric} of ${value}" with
underscores in the metric name replaced by spaces and the value formatted
`,.0f`. -/
def extraClauses : List (String × PyVal) → Except PyErr (List String)
  | [] => .ok []
  | (k, v) :: rest =>
      if k = "year" ∨ k = "revenue" ∨ k = "customers" ∨ k = "gross_margin"
      then extraClauses rest
      else do
        let s ← fmtCommaF0 v
        let tail ← extraClauses rest
        .ok (("with " ++ underscoreToSpace k ++ " of $" ++ s) :: tail)

/-- One full row sentence: `" ".join(lines) + "."`. -/
def renderRow (t : List (String × PyVal)) : Except PyErr String := do
  let head ← renderRowHead t
  let extras ← extraClauses t
  .ok (String.intercalate " " (head :: extras) ++ ".")

/-- Left-to-right effectful map over the target rows. -/
def renderRows : List (List (String × PyVal)) → Except PyErr (List String)
  | [] => .ok []
  | t :: ts => do
      let l ← renderRow t
      let ls ← renderRows ts
      .ok (l :: ls)

/-- The targets paragraph: `" ".join(targets_lines)`. -/
def targetsParagraph (rows : List (List (String × PyVal))) :
    Except PyErr String := do
  let ls ← renderRows rows
  .ok (String.intercalate " " ls)

/-- The SWOT paragraph.  When `swot` is `None`, the source evaluates
`self.swot.get("strengths", [])` on `None`, raising `AttributeError`
(no `MissingRequiredSection` error exists anywhere in the code). -/
def swotParagraph : Option (List (String × List String)) →
    Except PyErr String
  | Option.none =>
      .error (.attributeError "NoneType object has no attribute get")
  | some sw =>
      .ok ("Our SWOT analysis reveals that our strengths—"
        ++ String.intercalate ", " (swotGet sw "strengths")
        ++ "—position us well to capitalise on opportunities such as "
        ++ String.intercalate ", " (swotGet sw "opportunities")
        ++ ".  However, we must mitigate weaknesses like "
        ++ String.intercalate ", " (swotGet sw "weaknesses")
        ++ " and guard against threats such as "
        ++ String.intercalate ", " (swotGet sw "threats") ++ ".")

/-- The method `generate_narrative`: six paragraphs joined with blank lines, in
source evaluation order (the plan and the targets paragraph are computed
before the SWOT paragraph). -/
def generate_narrative (a : StrategicPlanningAgent) :
    Except PyErr String := do
  let plan := build_plan a
  let intro :=
    a.company_name ++ " exists to " ++ a.mission
      ++ ".  Our vision is to " ++ a.vision ++ ". "
      ++ "To achieve this ambition, we have created a three‑year strategic plan grounded in our core values: "
      ++ String.intercalate ", " a.core_values ++ "."
  let tp ← targetsParagraph plan.strategic_targets
  let mp :=
    "To realise these goals, we will pursue a focused set of Winning Moves. "
      ++ "On the revenue side we will: "
      ++ String.intercalate "; " a.revenue_moves ++ ". "
      ++ "On the profitability side we will: "
      ++ String.intercalate "; " a.profit_moves ++ "."
  let sp ← swotParagraph a.swot
  let ep :=
    "We will execute against clear milestones every six months and monitor key performance indicators across finance, customers, marketing, operations and HR. "
      ++ "Our plan leverages best‑in‑class service providers for legal, accounting, payroll, marketing and AI‑enabled HR to build a strong operational foundation."
  let cl :=
    "By aligning our team around this roadmap and measuring our progress relentlessly, "
      ++ a.company_name
      ++ " will be well positioned to achieve its three‑year objectives and move closer to its long‑term vision."
  .ok (String.intercalate "\n\n" [intro, tp, mp, sp, ep, cl])

/-! ### The Flask endpoint (`agent_api.py`, `generate_plan`)

The handler is modelled for JSON requests: the body is an arbitrary parsed
JSON value (`request.get_json(force=True)`), and the `try` block of the
source is an `Except PyErr` computation.  Attribute/arity failures of the
source (`.get` on a non-dict, `set_targets` called with one argument where
three are required, the non-existent methods `add_winning_moves`,
`add_swot`, `assemble_plan`, and `generate_narrative` called with an extra
argument) are raised as the corresponding Python exceptions. -/

/-- A parsed JSON value. -/
inductive Json where
  | jnull
  | jbool (b : Bool)
  | jnum (q : ℚ)
  | jstr (s : String)
  | jarr (xs : List Json)
  | jobj (fields : List (String × Json))

/-- Python `data.get(k, default)`: dictionary lookup with default on a JSON
object; any non-object receiver raises `AttributeError`. -/
def jsonGet (data : Json) (k : String) (dflt : Json) : Except PyErr Json :=
  match data with
  | .jobj fields =>
      match fields.find? (fun p => p.1 == k) with
      | some p => .ok p.2
      | Option.none => .ok dflt
  | _ => .error (.attributeError "object has no attribute get")

/-- Python truthiness of a JSON value (only lists reach the check in the
handler, but the model covers every case). -/
def jsonTruthy : Json → Bool
  | .jnull => false
  | .jbool b => b
  | .jnum q => q ≠ 0
  | .jstr s => s ≠ ""
  | .jarr xs => !xs.isEmpty
  | .jobj fields => !fields.isEmpty

/-- One entry of the handler targets list, built from
`targets_input.get(year_key, {})`. -/
def buildYearTarget (targets_input : Json) (year_key : String) :
    Except PyErr Json := do
  let year_data ← jsonGet targets_input year_key (.jobj [])
  let r ← jsonGet year_data "revenue" .jnull
  let c ← jsonGet year_data "customers" .jnull
  let m ← jsonGet year_data "margin" .jnull
  .ok (.jobj [("revenue_target", r), ("customer_target", c),
              ("margin_target", m)])

/-- The call `agent.set_targets(…)` with `args` positional arguments:
the method requires `revenue_targets`, `customer_targets` and
`margin_targets` and accepts one optional `other_targets`, so any other
arity raises `TypeError` at the call. -/
def set_targets_call (args : List Json) : Except PyErr Unit :=
  if 3 ≤ args.length ∧ args.length ≤ 4 then .ok ()
  else .error (.typeError
    "set_targets() missing 2 required positional arguments: customer_targets and margin_targets")

/-- The call `agent.add_winning_moves(…)`: no such method exists on
`StrategicPlanningAgent`. -/
def add_winning_moves_call (_moves : Json) : Except PyErr Unit :=
  .error (.attributeError
    "StrategicPlanningAgent object has no attribute add_winning_moves")

/-- The call `agent.add_swot(…)`: no such method exists. -/
def add_swot_call (_s _w _o _t : Json) : Except PyErr Unit :=
  .error (.attributeError
    "StrategicPlanningAgent object has no attribute add_swot")

/-- The call `agent.assemble_plan(company_name)`: no such method exists. -/
def assemble_plan_call (_company_name : Json) : Except PyErr Plan :=
  .error (.attributeError
    "StrategicPlanningAgent object has no attribute assemble_plan")

/-- The call `agent.generate_narrative(plan)`: the method takes no argument beyond
`self`, so the call raises `TypeError`. -/
def generate_narrative_call (_plan : Plan) : Except PyErr String :=
  .error (.typeError
    "generate_narrative() takes 1 positional argument but 2 were given")

/-- The body of the handler `try` block, in source order.  Plain field
assignments on the shared agent cannot raise and carry no information for
the result, so they are omitted; every fallible step is retained. -/
def handlerTry (data : Json) : Except PyErr (Plan × String) := do
  let company_name ← jsonGet data "company_name" (.jstr "Your Company")
  let _mission ← jsonGet data "mission" (.jstr "")
  let _vision ← jsonGet data "vision" (.jstr "")
  let _core_values ← jsonGet data "core_values" (.jarr [])
  let targets_input ← jsonGet data "targets" (.jobj [])
  let t1 ← buildYearTarget targets_input "year1"
  let t2 ← buildYearTarget targets_input "year2"
  let t3 ← buildYearTarget targets_input "year3"
  let targets : Json := .jarr [t1, t2, t3]
  let winning_moves ← jsonGet data "winning_moves" (.jarr [])
  let swot ← jsonGet data "swot" (.jobj [])
  let strengths ← jsonGet swot "strengths" (.jarr [])
  let weaknesses ← jsonGet swot "weaknesses" (.jarr [])
  let opportunities ← jsonGet swot "opportunities" (.jarr [])
  let threats ← jsonGet swot "threats" (.jarr [])
  let _baseline_metrics ← jsonGet data "baseline_metrics" (.jobj [])
  let _ ← set_targets_call [targets]
  let _ ← if jsonTruthy winning_moves
          then add_winning_moves_call winning_moves else .ok ()
  let _ ← if jsonTruthy strengths || jsonTruthy weaknesses
             || jsonTruthy opportunities || jsonTruthy threats
          then add_swot_call strengths weaknesses opportunities threats
          else .ok ()
  let plan ← assemble_plan_call company_name
  let narrative ← generate_narrative_call plan
  .ok (plan, narrative)

/-- What the endpoint sends back: the success record with the plan and
narrative, or an error record with an HTTP status. -/
inductive ApiResponse where
  | success (plan : Plan) (narrative : String)
  | failure (message : String) (status : Nat)

/-- Message text of a raised exception, as interpolated into the error
record. -/
def pyErrMsg : PyErr → String
  | .typeError m => m
  | .valueError m => m
  | .attributeError m => m
  | .keyError k => k
  | .overflowError m => m

/-- The `/generate_plan` endpoint on a JSON request: run the `try` block,
catching any exception into the 500 error record. -/
def generate_plan_endpoint (data : Json) : ApiResponse :=
  match handlerTry data with
  | .ok (p, n) => .success p n
  | .error e => .failure ("Failed to generate plan: " ++ pyErrMsg e) 500

/-! ### Concrete agent states used by the claims -/

/-- The end-to-end scenario input: profile Acme, 2025 targets
(revenue 1000000, customers 100, margin 0.2), one revenue and one profit
move, and a full SWOT. -/
def acmeAgent : StrategicPlanningAgent :=
  { company_name := "Acme"
    mission := "build widgets"
    vision := "best widgets"
    core_values := ["Integrity"]
    baseline_metrics := []
    revenue_targets := [(2025, PyVal.int 1000000)]
    customer_targets := [(2025, PyVal.int 100)]
    margin_targets := [(2025, PyVal.float (mkRat 1 5))]
    revenue_moves := ["Launch X"]
    profit_moves := ["Cut costs"]
    swot := some [("strengths", ["brand"]), ("weaknesses", ["small team"]),
                  ("opportunities", ["market growth"]),
                  ("threats", ["competition"])]
    start_year := 2025 }

/-- The Acme input with SWOT never supplied (`swot` left at its `None`
default). -/
def agentNoSwot : StrategicPlanningAgent :=
  { acmeAgent with swot := Option.none }

/-- Targets for 2025 and 2026 where the extra metric `net_profit` only has
a 2025 value, so the 2026 row carries `net_profit: None`. -/
def agentSparseExtra : StrategicPlanningAgent :=
  { acmeAgent with
    revenue_targets := [(2025, PyVal.int 1000000), (2026, PyVal.int 2000000)]
    customer_targets := [(2025, PyVal.int 100), (2026, PyVal.int 200)]
    margin_targets := [(2025, PyVal.float (mkRat 1 5)),
                       (2026, PyVal.float (mkRat 1 4))]
    other_targets := [("net_profit", [(2025, PyVal.int 50000)])] }

/-- A target set whose 2025 revenue is the non-numeric string
`"a lot"`. -/
def agentStringTarget : StrategicPlanningAgent :=
  { acmeAgent with
    revenue_targets := [(2025, PyVal.str "a lot")] }

/-- All four mappings empty except one extra metric carrying year 2030. -/
def agentExtraOnlyYear : StrategicPlanningAgent :=
  { acmeAgent with
    revenue_targets := []
    customer_targets := []
    margin_targets := []
    other_targets := [("net_profit", [(2030, PyVal.int 500000)])] }

/-- The union of the years of all four target mappings (revenue,
customers, margin and every extra metric), as the claim about the table
year set words it. -/
def allTargetYears (a : StrategicPlanningAgent) : List Int :=
  keysOf a.revenue_targets ++ keysOf a.customer_targets
    ++ keysOf a.margin_targets
    ++ (a.other_targets.map (fun p => keysOf p.2)).flatten

/-- The year values stored in the rows of the assembled target table. -/
def tableYearVals (a : StrategicPlanningAgent) : List (Option PyVal) :=
  (build_plan a).strategic_targets.map (fun t => rowLookup t "year")

/-- The string `needle` occurs as a substring of `hay`. -/
def strContains (needle hay : String) : Prop :=
  ∃ a b, hay = a ++ (needle ++ b)

/-- Whether a fallible narrative computation succeeded. -/
def exceptIsOk : Except PyErr String → Bool
  | .ok _ => true
  | .error _ => false

/-! ### Helper lemmas -/

theorem ratMul_eq_mul (a b : ℚ) : ratMul a b = a * b := by
  unfold ratMul
  rw [Rat.mkRat_eq_div]
  push_cast
  conv_rhs => rw [← Rat.num_div_den a, ← Rat.num_div_den b]
  rw [div_mul_div_comm]

theorem mkRat_intCast (a : Int) : mkRat a 1 = (a : ℚ) := by
  rw [Rat.mkRat_eq_div]
  simp

theorem rowLookup_dictInsert_self (d : List (String × PyVal)) (k : String)
    (v : PyVal) : rowLookup (dictInsert d k v) k = some v := by
  induction d with
  | nil => simp [dictInsert, rowLookup]
  | cons p rest ih =>
      obtain ⟨k₁, v₁⟩ := p
      by_cases h : k₁ = k
      · subst h; simp [dictInsert, rowLookup]
      · simp [dictInsert, rowLookup, h, ih]

theorem rowLookup_dictInsert_ne (d : List (String × PyVal)) (k' k : String)
    (v : PyVal) (h : k' ≠ k) :
    rowLookup (dictInsert d k' v) k = rowLookup d k := by
  induction d with
  | nil => simp [dictInsert, rowLookup, h]
  | cons p rest ih =>
      obtain ⟨k₁, v₁⟩ := p
      by_cases h₁ : k₁ = k'
      · subst h₁; simp [dictInsert, rowLookup, h]
      · by_cases h₂ : k₁ = k <;>
          simp [dictInsert, rowLookup, h₁, h₂, ih, Ne.symm h]

theorem rowLookup_foldlInsert_not_mem (l : List (String × PyVal))
    (base : List (String × PyVal)) (k : String)
    (h : ∀ p ∈ l, p.1 ≠ k) :
    rowLookup (l.foldl (fun d p => dictInsert d p.1 p.2) base) k
      = rowLookup base k := by
  induction l generalizing base with
  | nil => rfl
  | cons p rest ih =>
      simp only [List.foldl_cons]
      rw [ih _ (fun q hq => h q (List.mem_cons_of_mem _ hq))]
      exact rowLookup_dictInsert_ne _ _ _ _ (h p (List.mem_cons_self _ _))

theorem rowLookup_foldlInsert_mem (l : List (String × PyVal))
    (base : List (String × PyVal)) (k : String) (v : PyVal)
    (hnd : (l.map Prod.fst).Nodup) (hmem : (k, v) ∈ l) :
    rowLookup (l.foldl (fun d p => dictInsert d p.1 p.2) base) k = some v := by
  induction l generalizing base with
  | nil => cases hmem
  | cons p rest ih =>
      obtain ⟨k₁, v₁⟩ := p
      simp only [List.map_cons, List.nodup_cons] at hnd
      simp only [List.foldl_cons]
      rcases List.mem_cons.mp hmem with heq | hrest
      · obtain ⟨hk, hv⟩ := Prod.mk.injEq .. ▸ heq
        subst hk; subst hv
        rw [rowLookup_foldlInsert_not_mem rest _ _ ?hrest]
        · exact rowLookup_dictInsert_self _ _ _
        case hrest =>
          intro q hq hqk
          exact hnd.1 (hqk ▸ List.mem_map_of_mem Prod.fst hq)
      · exact ih _ hnd.2 hrest

theorem dictGet_eq_none_of_not_mem (d : List (Int × PyVal)) (k : Int)
    (h : k ∉ keysOf d) : dictGet d k = PyVal.none := by
  induction d with
  | nil => rfl
  | cons p rest ih =>
      obtain ⟨k₁, v₁⟩ := p
      simp only [keysOf, List.map_cons, List.mem_cons] at h
      push_neg at h
      simp [dictGet, Ne.symm h.1, ih (by simpa [keysOf] using h.2)]

theorem planYears_sorted_lt (a : StrategicPlanningAgent) :
    List.Sorted (· < ·) (planYears a) := by
  have hs : List.Sorted (· ≤ ·) (planYears a) :=
    List.sorted_insertionSort _ _
  have hnd : (planYears a).Nodup :=
    ((List.perm_insertionSort _ _).nodup_iff).mpr (List.nodup_dedup _)
  exact (List.Pairwise.and hs hnd).imp (fun h => lt_of_le_of_ne h.1 h.2)

theorem planYears_mem (a : StrategicPlanningAgent) (y : Int) :
    y ∈ planYears a ↔
      (y ∈ keysOf a.revenue_targets ∨ y ∈ keysOf a.customer_targets
        ∨ y ∈ keysOf a.margin_targets) := by
  unfold planYears
  rw [(List.perm_insertionSort _ _).mem_iff, List.mem_dedup]
  simp [or_assoc]

theorem rowLookup_buildRow_year (a : StrategicPlanningAgent) (y : Int)
    (h : ∀ p ∈ a.other_targets, p.1 ≠ "year") :
    rowLookup (buildRow a y) "year" = some (PyVal.int y) := by
  unfold buildRow
  rw [rowLookup_foldlInsert_not_mem]
  · rfl
  · intro p hp
    obtain ⟨q, hq, rfl⟩ := List.mem_map.mp hp
    exact h q hq

theorem bind_error_of_all {α β : Type} (x : Except PyErr α)
    (f : α → Except PyErr β)
    (h : ∀ a, ∃ e, f a = .error e) : ∃ e, (x >>= f) = .error e := by
  cases x with
  | error e => exact ⟨e, rfl⟩
  | ok a => exact h a

theorem exceptOkBind {α β : Type} (a : α) (f : α → Except PyErr β) :
    (Except.ok a >>= f) = f a := rfl

theorem daysInMonth_ge (y : Int) (m : Nat) : 28 ≤ daysInMonth y m := by
  unfold daysInMonth
  split
  · split <;> omega
  · split <;> omega

theorem nextDay_chi (d : Date) :
    28 * (12 * (nextDay d).year + ((nextDay d).month : Int))
        + ((nextDay d).day : Int)
      ≤ 28 * (12 * d.year + (d.month : Int)) + (d.day : Int) + 1 := by
  have hmin := daysInMonth_ge d.year d.month
  unfold nextDay
  by_cases h1 : d.day < daysInMonth d.year d.month
  · rw [if_pos h1]
    dsimp only
    push_cast
    omega
  · rw [if_neg h1]
    push_neg at h1
    by_cases h2 : d.month < 12
    · rw [if_pos h2]
      dsimp only
      push_cast
      omega
    · rw [if_neg h2]
      push_neg at h2
      dsimp only
      push_cast
      omega

theorem addDays_chi (d : Date) (n : Nat) :
    28 * (12 * (addDays d n).year + ((addDays d n).month : Int))
        + ((addDays d n).day : Int)
      ≤ 28 * (12 * d.year + (d.month : Int)) + (d.day : Int) + n := by
  induction n with
  | zero => simp [addDays]
  | succ k ih =>
      have hstep := nextDay_chi (addDays d k)
      simp only [addDays]
      push_cast
      omega

theorem addDays_month_pos (d : Date) (n : Nat) (h : 1 ≤ d.month) :
    1 ≤ (addDays d n).month := by
  induction n with
  | zero => exact h
  | succ k ih =>
      simp only [addDays]
      unfold nextDay
      split
      · exact ih
      · split
        · dsimp only
          omega
        · dsimp only
          omega

theorem addDays_day_pos (d : Date) (n : Nat) (h : 1 ≤ d.day) :
    1 ≤ (addDays d n).day := by
  induction n with
  | zero => exact h
  | succ k ih =>
      simp only [addDays]
      unfold nextDay
      split
      · dsimp only
        omega
      · split
        · dsimp only
          omega
        · dsimp only
          omega

theorem addDays_year_le_of_jan1 (y : Int) (n : Nat) (hn : n ≤ 900) :
    (addDays ⟨y, 1, 1⟩ n).year ≤ y + 2 := by
  have hchi := addDays_chi ⟨y, 1, 1⟩ n
  have hm := addDays_month_pos ⟨y, 1, 1⟩ n (le_refl 1)
  have hd := addDays_day_pos ⟨y, 1, 1⟩ n (le_refl 1)
  dsimp only at hchi
  push_cast at hchi
  omega

theorem addDaysChecked_jan1_ok (y : Int) (n : Nat) (h2 : y ≤ 9997)
    (hn : n ≤ 900) :
    addDaysChecked ⟨y, 1, 1⟩ n = .ok (addDays ⟨y, 1, 1⟩ n) := by
  have h3 : (addDays ⟨y, 1, 1⟩ n).year ≤ MAXYEAR := by
    have := addDays_year_le_of_jan1 y n hn
    unfold MAXYEAR
    omega
  simp only [addDaysChecked]
  rw [if_pos h3]

theorem milestoneEntriesChecked_ok (start : Date) (sy m : Int)
    (l : List Int)
    (h : ∀ i ∈ l, ∃ d, addDaysChecked start (30 * i).toNat = .ok d) :
    ∃ out, milestoneEntriesChecked start sy m l = .ok out
      ∧ out.length = l.length := by
  induction l with
  | nil => exact ⟨[], rfl, rfl⟩
  | cons i rest ih =>
      obtain ⟨d, hd⟩ := h i (List.mem_cons_self _ _)
      obtain ⟨out, hout, hlen⟩ :=
        ih (fun j hj => h j (List.mem_cons_of_mem _ hj))
      refine ⟨(d, "Milestone " ++ toString (Int.fdiv i m + 1)
          ++ " – Year " ++ toString (d.year - sy + 1)) :: out, ?_, ?_⟩
      · show milestoneEntriesChecked start sy m (i :: rest) = _
        simp only [milestoneEntriesChecked]
        rw [hd, exceptOkBind, hout, exceptOkBind]
      · simp [hlen]

/-! ### Claim theorems -/

/-- C4: on every JSON request body, the `/generate_plan` handler raises
inside its `try` block — at the latest when `agent.set_targets` is called
with a single list where three mappings are required — so the endpoint
always answers with the 500 error record and never with the success
record. -/
theorem endpoint_always_500 (data : Json) :
    ∃ msg, generate_plan_endpoint data = .failure msg 500 := by
  have h : ∃ e, handlerTry data = .error e := by
    unfold handlerTry
    refine bind_error_of_all _ _ (fun _ => ?_)
    refine bind_error_of_all _ _ (fun _ => ?_)
    refine bind_error_of_all _ _ (fun _ => ?_)
    refine bind_error_of_all _ _ (fun _ => ?_)
    refine bind_error_of_all _ _ (fun _ => ?_)
    refine bind_error_of_all _ _ (fun _ => ?_)
    refine bind_error_of_all _ _ (fun _ => ?_)
    refine bind_error_of_all _ _ (fun _ => ?_)
    refine bind_error_of_all _ _ (fun _ => ?_)
    refine bind_error_of_all _ _ (fun _ => ?_)
    refine bind_error_of_all _ _ (fun _ => ?_)
    refine bind_error_of_all _ _ (fun _ => ?_)
    refine bind_error_of_all _ _ (fun _ => ?_)
    refine bind_error_of_all _ _ (fun _ => ?_)
    refine bind_error_of_all _ _ (fun _ => ?_)
    exact ⟨_, rfl⟩
  obtain ⟨e, he⟩ := h
  refine ⟨"Failed to generate plan: " ++ pyErrMsg e, ?_⟩
  unfold generate_plan_endpoint
  rw [he]

/-- C2: with SWOT never supplied, `generate_narrative` does not fail with
a typed MissingRequiredSection error — it raises `AttributeError` from the
unguarded `self.swot.get("strengths", [])` on `None` (no
MissingRequiredSection error exists anywhere in the code); no narrative
text is produced. -/
theorem narrative_without_swot_attribute_error :
    generate_narrative agentNoSwot =
      .error (.attributeError "NoneType object has no attribute get") := by
  decide

/-- C3: an extra metric with no value on a row is not skipped — the row
stores `net_profit: None` and the narrative clause rendering raises
`TypeError` when formatting `None` with `,.0f`, so narrative generation
fails instead of omitting the clause. -/
theorem sparse_extra_metric_type_error :
    rowLookup (buildRow agentSparseExtra 2026) "net_profit"
        = some PyVal.none
      ∧ (build_plan agentSparseExtra).strategic_targets =
          [buildRow agentSparseExtra 2025, buildRow agentSparseExtra 2026]
      ∧ generate_narrative agentSparseExtra =
          .error (.typeError
            "unsupported format string passed to NoneType.__format__") := by
  refine ⟨by decide, by decide, by decide⟩

/-- C6: a present but non-numeric target value is not rejected at
assembly time — `build_plan` stores the string `"a lot"` verbatim in the
2025 row and returns normally; the failure only surfaces later inside
`generate_narrative` as an untyped `ValueError` from the format spec,
identifying neither year nor metric. -/
theorem string_target_passes_assembly :
    (build_plan agentStringTarget).strategic_targets =
      [[("year", PyVal.int 2025), ("revenue", PyVal.str "a lot"),
        ("customers", PyVal.int 100),
        ("gross_margin", PyVal.float (mkRat 1 5))]]
      ∧ generate_narrative agentStringTarget =
          .error (.valueError
            "Unknown format code f for object of type str") := by
  refine ⟨by decide, by decide⟩

/-- C8: narrative numeric formatting — a margin fraction is rendered
through `* 100` and the `.0f` spec (0.35 → "35%", 0.4 → "40%"), and a
revenue value through the `,.0f` spec behind a dollar sign
(1000000 → "$1,000,000"). -/
theorem narrative_numeric_formatting :
    ((pyMul (PyVal.float (mkRat 7 20)) (PyVal.int 100)).bind fmtF0).map
        (fun s => s ++ "%") = .ok "35%"
      ∧ ((pyMul (PyVal.float (mkRat 2 5)) (PyVal.int 100)).bind fmtF0).map
          (fun s => s ++ "%") = .ok "40%"
      ∧ (fmtCommaF0 (PyVal.int 1000000)).map
          (fun s => "$" ++ s) = .ok "$1,000,000" := by
  refine ⟨by decide, by decide, by decide⟩

/-- C9: the end-to-end Acme scenario — the assembled table has exactly
one row, for 2025, holding revenue 1000000, customers 100 and margin 0.2
(= `mkRat 1 5`); the targets paragraph of the narrative is exactly the
expected sentence followed by a period, hence contains the expected
substring; and narrative generation succeeds. -/
theorem end_to_end_acme :
    (build_plan acmeAgent).strategic_targets =
      [[("year", PyVal.int 2025), ("revenue", PyVal.int 1000000),
        ("customers", PyVal.int 100),
        ("gross_margin", PyVal.float (mkRat 1 5))]]
    ∧ targetsParagraph (build_plan acmeAgent).strategic_targets =
        .ok ("In 2025, we aim to generate $1,000,000 in revenue and serve 100 customers, achieving a gross margin of 20%" ++ ".")
    ∧ strContains "In 2025, we aim to generate $1,000,000 in revenue and serve 100 customers, achieving a gross margin of 20%"
        ("In 2025, we aim to generate $1,000,000 in revenue and serve 100 customers, achieving a gross margin of 20%" ++ ".")
    ∧ exceptIsOk (generate_narrative acmeAgent) = true := by
  refine ⟨by decide, by decide, ⟨"", ".", rfl⟩, by decide⟩


/-- C1 (as stated) is false: with all of revenue/customer/margin empty and
one extra metric holding year 2030, the assembled table is empty although
2030 appears in the union of the four target mappings — the source only
unions the three fixed mappings when computing the year list. -/
theorem table_years_union_counterexample :
    ¬ (∀ y : Int,
        (some (PyVal.int y) ∈ tableYearVals agentExtraOnlyYear)
          ↔ y ∈ allTargetYears agentExtraOnlyYear) := by
  intro h
  have h30 := (h 2030).mpr (by decide)
  exact absurd h30 (by decide)

/-- C1 amended: the table year set equals the union of the years of the
revenue, customer and margin mappings only (years appearing only in an
extra-metric mapping produce no row), sorted strictly ascending with no
duplicates, and each row stores its year. -/
theorem table_years_amended (a : StrategicPlanningAgent) (y : Int)
    (h : ∀ p ∈ a.other_targets, p.1 ≠ "year") :
    tableYearVals a = (planYears a).map (fun z => some (PyVal.int z))
    ∧ List.Sorted (· < ·) (planYears a)
    ∧ (y ∈ planYears a ↔
        (y ∈ keysOf a.revenue_targets ∨ y ∈ keysOf a.customer_targets
          ∨ y ∈ keysOf a.margin_targets)) := by
  refine ⟨?_, planYears_sorted_lt a, planYears_mem a y⟩
  show ((planYears a).map (buildRow a)).map (fun t => rowLookup t "year") = _
  rw [List.map_map]
  refine List.map_congr_left (fun z _ => ?_)
  exact rowLookup_buildRow_year a z h

theorem table_years_amended_witness :
    (∀ p ∈ agentSparseExtra.other_targets, p.1 ≠ "year")
    ∧ (tableYearVals agentSparseExtra =
          (planYears agentSparseExtra).map (fun z => some (PyVal.int z))
        ∧ List.Sorted (· < ·) (planYears agentSparseExtra)
        ∧ (2026 ∈ planYears agentSparseExtra ↔
            (2026 ∈ keysOf agentSparseExtra.revenue_targets
              ∨ 2026 ∈ keysOf agentSparseExtra.customer_targets
              ∨ 2026 ∈ keysOf agentSparseExtra.margin_targets))) :=
  ⟨by decide, table_years_amended agentSparseExtra 2026 (by decide)⟩

/-- C7: for every row of the assembled table (the row of year `y`), a
metric with no value for `y` in its source mapping — whether revenue,
customers, gross margin or any extra metric — is stored as the explicit
absence marker `None`, never as a zero default. -/
theorem absent_metric_is_none (a : StrategicPlanningAgent) (y : Int)
    (hres : ∀ p ∈ a.other_targets, p.1 ≠ "year" ∧ p.1 ≠ "revenue"
      ∧ p.1 ≠ "customers" ∧ p.1 ≠ "gross_margin")
    (hnd : (a.other_targets.map Prod.fst).Nodup)
    (hy : y ∈ planYears a) :
    buildRow a y ∈ (build_plan a).strategic_targets
    ∧ rowLookup (buildRow a y) "year" = some (PyVal.int y)
    ∧ (y ∉ keysOf a.revenue_targets →
        rowLookup (buildRow a y) "revenue" = some PyVal.none)
    ∧ (y ∉ keysOf a.customer_targets →
        rowLookup (buildRow a y) "customers" = some PyVal.none)
    ∧ (y ∉ keysOf a.margin_targets →
        rowLookup (buildRow a y) "gross_margin" = some PyVal.none)
    ∧ (∀ p ∈ a.other_targets, y ∉ keysOf p.2 →
        rowLookup (buildRow a y) p.1 = some PyVal.none) := by
  have hext : ∀ (k : String), k = "year" ∨ k = "revenue" ∨ k = "customers"
      ∨ k = "gross_margin" →
      ∀ p ∈ (a.other_targets.map (fun q => (q.1, dictGet q.2 y))), p.1 ≠ k := by
    rintro k hk p hp
    obtain ⟨q, hq, rfl⟩ := List.mem_map.mp hp
    obtain ⟨h1, h2, h3, h4⟩ := hres q hq
    rcases hk with rfl | rfl | rfl | rfl
    · exact h1
    · exact h2
    · exact h3
    · exact h4
  refine ⟨List.mem_map_of_mem _ hy, rowLookup_buildRow_year a y
      (fun p hp => (hres p hp).1), ?_, ?_, ?_, ?_⟩
  · intro hnot
    unfold buildRow
    rw [rowLookup_foldlInsert_not_mem _ _ _ (hext _ (by simp))]
    rw [dictGet_eq_none_of_not_mem _ _ hnot]
    rfl
  · intro hnot
    unfold buildRow
    rw [rowLookup_foldlInsert_not_mem _ _ _ (hext _ (by simp))]
    rw [dictGet_eq_none_of_not_mem _ _ hnot]
    rfl
  · intro hnot
    unfold buildRow
    rw [rowLookup_foldlInsert_not_mem _ _ _ (hext _ (by simp))]
    rw [dictGet_eq_none_of_not_mem _ _ hnot]
    rfl
  · intro p hp hnot
    unfold buildRow
    have hmem : (p.1, dictGet p.2 y)
        ∈ a.other_targets.map (fun q => (q.1, dictGet q.2 y)) :=
      List.mem_map_of_mem _ hp
    have hnd' : ((a.other_targets.map
        (fun q => (q.1, dictGet q.2 y))).map Prod.fst).Nodup := by
      rw [List.map_map]
      exact hnd
    rw [rowLookup_foldlInsert_mem _ _ _ _ hnd' hmem]
    rw [dictGet_eq_none_of_not_mem _ _ hnot]

theorem absent_metric_is_none_witness :
    (∀ p ∈ agentSparseExtra.other_targets, p.1 ≠ "year" ∧ p.1 ≠ "revenue"
      ∧ p.1 ≠ "customers" ∧ p.1 ≠ "gross_margin")
    ∧ (agentSparseExtra.other_targets.map Prod.fst).Nodup
    ∧ 2026 ∈ planYears agentSparseExtra
    ∧ (buildRow agentSparseExtra 2026
          ∈ (build_plan agentSparseExtra).strategic_targets
      ∧ rowLookup (buildRow agentSparseExtra 2026) "year"
          = some (PyVal.int 2026)
      ∧ (2026 ∉ keysOf agentSparseExtra.revenue_targets →
          rowLookup (buildRow agentSparseExtra 2026) "revenue"
            = some PyVal.none)
      ∧ (2026 ∉ keysOf agentSparseExtra.customer_targets →
          rowLookup (buildRow agentSparseExtra 2026) "customers"
            = some PyVal.none)
      ∧ (2026 ∉ keysOf agentSparseExtra.margin_targets →
          rowLookup (buildRow agentSparseExtra 2026) "gross_margin"
            = some PyVal.none)
      ∧ (∀ p ∈ agentSparseExtra.other_targets, 2026 ∉ keysOf p.2 →
          rowLookup (buildRow agentSparseExtra 2026) p.1
            = some PyVal.none)) :=
  ⟨by decide, by decide, by decide,
    absent_metric_is_none agentSparseExtra 2026 (by decide) (by decide)
      (by decide)⟩


/-- C5: for every cadence, the milestone produced at loop month-offset
`i = cadence * k` (the `k`-th entry) carries the date
`date(start_year, 1, 1) + timedelta(days = 30 * i)` and the label
`"Milestone {k+1} – Year {offset}"` where the offset is the 1-based
year-of-plan derived from the calendar year of the computed date
relative to the start year. -/
theorem milestone_schedule (y m : Int) (l : List (Date × String))
    (h : generate_milestones y m = .ok l) (k : Nat) (hk : k < l.length) :
    l.get ⟨k, hk⟩ =
      (addDays ⟨y, 1, 1⟩ (30 * (m.toNat * k)),
        "Milestone " ++ toString (k + 1) ++ " – Year "
          ++ toString ((addDays ⟨y, 1, 1⟩ (30 * (m.toNat * k))).year
            - y + 1)) := by
  unfold generate_milestones at h
  by_cases hm0 : m = 0
  · rw [if_pos hm0] at h
    exact absurd h (by simp)
  rw [if_neg hm0] at h
  have hl : l = milestonesList y m := by
    injection h with h'
    exact h'.symm
  subst hl
  rcases lt_or_gt_of_ne hm0 with hneg | hpos
  · exfalso
    have h2 : (0 : Int) < -m := by omega
    have hcount : ((0 - 36 + (-m) - 1) / (-m)).toNat = 0 := by
      apply Int.toNat_of_nonpos
      have h3 : (0 - 36 + (-m) - 1) / (-m) < 1 := by
        rw [Int.ediv_lt_iff_lt_mul h2]
        omega
      omega
    have hempty : pyRange 0 36 m = [] := by
      unfold pyRange
      rw [if_neg (by omega), if_pos hneg, hcount]
      rfl
    rw [milestonesList, hempty] at hk
    simp at hk
  · have hdays : ∀ j : Nat,
        (30 * (m * (j : Int))).toNat = 30 * (m.toNat * j) := by
      intro j
      obtain ⟨t, rfl⟩ : ∃ t : Nat, m = (t : Int) :=
        ⟨m.toNat, (Int.toNat_of_nonneg hpos.le).symm⟩
      simp only [Int.toNat_natCast]
      norm_cast
    have hfdiv : ∀ j : Nat,
        (m * (j : Int)).fdiv m + 1 = ((j + 1 : Nat) : Int) := by
      intro j
      rw [Int.mul_fdiv_cancel_left _ hm0]
      push_cast
      ring
    have hlist : milestonesList y m =
        (List.range ((36 - 0 + m - 1) / m).toNat).map
          (fun j => (addDays ⟨y, 1, 1⟩ (30 * (m.toNat * j)),
            "Milestone " ++ toString (j + 1) ++ " – Year "
              ++ toString ((addDays ⟨y, 1, 1⟩
                (30 * (m.toNat * j))).year - y + 1))) := by
      unfold milestonesList pyRange
      rw [if_pos hpos, List.map_map]
      refine List.map_congr_left (fun j _ => ?_)
      simp only [Function.comp_apply, zero_add, hdays j, hfdiv j]
      rfl
    rw [List.get_of_eq hlist]
    rw [List.get_map, List.get_range]

set_option maxRecDepth 4000 in
theorem milestone_schedule_witness :
    generate_milestones 2025 6 =
      .ok [(⟨2025, 1, 1⟩, "Milestone 1 – Year 1"),
           (⟨2025, 6, 30⟩, "Milestone 2 – Year 1"),
           (⟨2025, 12, 27⟩, "Milestone 3 – Year 1"),
           (⟨2026, 6, 25⟩, "Milestone 4 – Year 2"),
           (⟨2026, 12, 22⟩, "Milestone 5 – Year 2"),
           (⟨2027, 6, 20⟩, "Milestone 6 – Year 3")]
    ∧ [(⟨2025, 1, 1⟩, "Milestone 1 – Year 1"),
       (⟨2025, 6, 30⟩, "Milestone 2 – Year 1"),
       (⟨2025, 12, 27⟩, "Milestone 3 – Year 1"),
       (⟨2026, 6, 25⟩, "Milestone 4 – Year 2"),
       (⟨2026, 12, 22⟩, "Milestone 5 – Year 2"),
       (⟨2027, 6, 20⟩, "Milestone 6 – Year 3")].get ⟨3, by decide⟩ =
        (addDays ⟨2025, 1, 1⟩ (30 * ((6 : Int).toNat * 3)),
          "Milestone " ++ toString (3 + 1) ++ " – Year "
            ++ toString ((addDays ⟨2025, 1, 1⟩
              (30 * ((6 : Int).toNat * 3))).year - 2025 + 1)) :=
  ⟨by decide, milestone_schedule 2025 6 _ (by decide) 3 (by decide)⟩

set_option maxRecDepth 4000 in
/-- C10 (as stated) is false: milestone generation does not return 6
entries for every start year, because `datetime` bounds years to
1..9999 — start year 9999 is accepted by the `date` constructor but the
fourth milestone date (January 1 9999 + 540 days) overflows past
9999-12-31 and raises `OverflowError` mid-loop, and start year 0 raises
`ValueError` in the constructor itself. -/
theorem milestones_year_bound_counterexample :
    generate_milestones_checked 9999 6
        = .error (.overflowError "date value out of range")
    ∧ generate_milestones_checked 0 6
        = .error (.valueError "year 0 is out of range")
    ∧ ¬ ∃ l, generate_milestones_checked 9999 6 = .ok l
        ∧ l.length = 6 := by
  refine ⟨by decide, by decide, ?_⟩
  rintro ⟨l, hl, -⟩
  rw [show generate_milestones_checked 9999 6
      = .error (.overflowError "date value out of range") from by decide]
      at hl
  exact Except.noConfusion hl

/-- C10 amended: with the default cadence of 6 months over the 36-month
horizon, milestone generation returns exactly 6 (date, label) entries for
every start year from 1 to 9997 — the start years for which January 1 is
constructible and all six milestone dates stay within the year-9999
bound of `datetime`; outside that range the date constructor or the
bounded date addition raises instead. -/
theorem milestones_default_cadence_count (y : Int) (h1 : 1 ≤ y)
    (h2 : y ≤ 9997) :
    ∃ l, generate_milestones_checked y 6 = .ok l ∧ l.length = 6 := by
  have hctor : dateCtor y 1 1 = .ok ⟨y, 1, 1⟩ := by
    unfold dateCtor
    rw [if_neg (by unfold MINYEAR MAXYEAR; omega),
        if_neg (by decide),
        if_neg (by simp [daysInMonth])]
  have hall : ∀ i ∈ ([0, 6, 12, 18, 24, 30] : List Int),
      ∃ d, addDaysChecked ⟨y, 1, 1⟩ ((30 * i).toNat) = .ok d := by
    intro i hi
    have hb : (30 * i).toNat ≤ 900 := by
      fin_cases hi <;> decide
    exact ⟨_, addDaysChecked_jan1_ok y _ h2 hb⟩
  obtain ⟨out, hout, hlen⟩ :=
    milestoneEntriesChecked_ok ⟨y, 1, 1⟩ y 6 [0, 6, 12, 18, 24, 30] hall
  refine ⟨out, ?_, by simpa using hlen⟩
  unfold generate_milestones_checked
  rw [hctor, exceptOkBind, if_neg (by decide),
      show pyRange 0 36 6 = [0, 6, 12, 18, 24, 30] from by decide]
  exact hout

theorem milestones_default_cadence_count_witness :
    ((1 : Int) ≤ 2025 ∧ (2025 : Int) ≤ 9997)
    ∧ ∃ l, generate_milestones_checked 2025 6 = .ok l ∧ l.length = 6 :=
  ⟨⟨by decide, by decide⟩,
    milestones_default_cadence_count 2025 (by decide) (by decide)⟩

end PlanningAgent
